import Mathlib

/-!
Shallow embedding of the transaction coordination core of the
jie-jay/aerospike-server repository, covering:

- the wire message field enumeration `rw_msg_field`
  (src/as/include/transaction/rw_request_hash.h),
- the request registry (`rw_request_hash_insert` / `rw_request_hash_delete`),
- duplicate-resolution winner selection,
- index metadata stash/unwind,
- replica-write commit level handling (`respond_on_master_complete`,
  `finished_not_replicated`, replica idempotence),
- `clear_delete_response_metadata`,
- the filename validation of `udf_cask_info_put`
  (src/as/src/base/udf_cask.c).

Functions whose bodies are not part of the repository snapshot (only their
declarations appear in the headers) are modelled from the specification; each
such definition carries a doc comment starting `Modelled from the spec:`.
-/

set_option maxHeartbeats 1000000

--==========================================================
-- Wire message field enumeration (rw_request_hash.h, lines 48-72).
--

/-- The `rw_msg_field` enum from rw_request_hash.h: one constructor per
enumerator, in the exact declaration order of the C source. C gives each
enumerator the next consecutive value starting at 0. -/
inductive rw_msg_field
  | RW_FIELD_OP
  | RW_FIELD_RESULT
  | RW_FIELD_NAMESPACE
  | RW_FIELD_NS_IX
  | RW_FIELD_GENERATION
  | RW_FIELD_DIGEST
  | RW_FIELD_RECORD
  | RW_FIELD_UNUSED_7
  | RW_FIELD_UNUSED_8
  | RW_FIELD_UNUSED_9
  | RW_FIELD_TID
  | RW_FIELD_UNUSED_11
  | RW_FIELD_INFO
  | RW_FIELD_UNUSED_13
  | RW_FIELD_UNUSED_14
  | RW_FIELD_UNUSED_15
  | RW_FIELD_LAST_UPDATE_TIME
  | RW_FIELD_UNUSED_17
  | RW_FIELD_UNUSED_18
  | RW_FIELD_REGIME
  deriving DecidableEq, Repr

open rw_msg_field

/-- The enumerators in C declaration order; the ordinal of each field is its
position in this list, mirroring C's consecutive value assignment. -/
def rw_msg_field_order : List rw_msg_field :=
  [RW_FIELD_OP, RW_FIELD_RESULT, RW_FIELD_NAMESPACE, RW_FIELD_NS_IX,
   RW_FIELD_GENERATION, RW_FIELD_DIGEST, RW_FIELD_RECORD,
   RW_FIELD_UNUSED_7, RW_FIELD_UNUSED_8, RW_FIELD_UNUSED_9,
   RW_FIELD_TID, RW_FIELD_UNUSED_11, RW_FIELD_INFO,
   RW_FIELD_UNUSED_13, RW_FIELD_UNUSED_14, RW_FIELD_UNUSED_15,
   RW_FIELD_LAST_UPDATE_TIME, RW_FIELD_UNUSED_17, RW_FIELD_UNUSED_18,
   RW_FIELD_REGIME]

/-- The ordinal (wire value) of a field: its index in the declaration order. -/
def rw_field_ordinal (f : rw_msg_field) : Nat :=
  rw_msg_field_order.indexOf f

/-- `NUM_RW_FIELDS`, the trailing count enumerator of the C enum. -/
def NUM_RW_FIELDS : Nat := rw_msg_field_order.length

/-- Whether an enumerator is one of the `RW_FIELD_UNUSED_*` reserved slots. -/
def rw_field_is_unused : rw_msg_field → Bool
  | RW_FIELD_UNUSED_7 => true
  | RW_FIELD_UNUSED_8 => true
  | RW_FIELD_UNUSED_9 => true
  | RW_FIELD_UNUSED_11 => true
  | RW_FIELD_UNUSED_13 => true
  | RW_FIELD_UNUSED_14 => true
  | RW_FIELD_UNUSED_15 => true
  | RW_FIELD_UNUSED_17 => true
  | RW_FIELD_UNUSED_18 => true
  | _ => false

--==========================================================
-- Request registry (rw_request_hash.h).
--

/-- `cf_digest`: the 20-byte record digest, modelled as its byte list. -/
structure cf_digest where
  bytes : List Nat
  deriving DecidableEq, Repr

/-- `rw_request_hkey` (rw_request_hash.h, lines 94-97): namespace index plus
record digest, the registry key. -/
structure rw_request_hkey where
  ns_ix : Nat
  keyd : cf_digest
  deriving DecidableEq, Repr

/-- A registry entry. The fields of `rw_request` that matter to the registry
contract are its identity (compared on delete) and the transaction id used to
match replies; we carry the tid as the identity. -/
structure rw_request where
  tid : Nat
  deriving DecidableEq, Repr

/-- Modelled from the spec: `insert(key, new_entry) -> Accepted |
Rejected(reason)` (spec section 4.1). The C return type `transaction_status`
lives in base/transaction.h, which is not part of the snapshot. -/
inductive trans_status
  | Accepted
  | Rejected
  deriving DecidableEq, Repr

/-- The registry table: an association of keys to entries. The C
implementation is a hash table; the model is its abstract content. -/
abbrev rw_hash := List (rw_request_hkey × rw_request)

/-- `rw_request_hash_get`: lookup of the entry stored under a key. -/
def rw_request_hash_get : rw_hash → rw_request_hkey → Option rw_request
  | [], _ => none
  | (k, v) :: t, hkey => if k = hkey then some v else rw_request_hash_get t hkey

/-- Modelled from the spec: `rw_request_hash_insert` (declared at
rw_request_hash.h line 107, body not in the snapshot). Per spec section 4.1 it
rejects when an entry for the key already exists, otherwise stores the new
entry. Returns the status and the resulting table. -/
def rw_request_hash_insert (h : rw_hash) (hkey : rw_request_hkey)
    (rw : rw_request) : trans_status × rw_hash :=
  match rw_request_hash_get h hkey with
  | some _ => (trans_status.Rejected, h)
  | none => (trans_status.Accepted, (hkey, rw) :: h)

/-- Modelled from the spec: `rw_request_hash_delete` (declared at
rw_request_hash.h line 108, body not in the snapshot). Per spec section 4.1 it
removes the key only if the stored entry's identity matches the given entry. -/
def rw_request_hash_delete (h : rw_hash) (hkey : rw_request_hkey)
    (rw : rw_request) : rw_hash :=
  match rw_request_hash_get h hkey with
  | some stored =>
      if stored = rw then h.filter (fun p => decide (p.1 ≠ hkey)) else h
  | none => h

/-- No two stored pairs share a key. -/
def rw_hash_nodup_keys (h : rw_hash) : Prop :=
  h.Pairwise (fun a b => a.1 ≠ b.1)

/-- The registry states reachable from the empty table by inserts and
deletes. -/
inductive rw_hash_reachable : rw_hash → Prop
  | empty : rw_hash_reachable []
  | insert (h : rw_hash) (hkey : rw_request_hkey) (rw : rw_request) :
      rw_hash_reachable h →
      rw_hash_reachable (rw_request_hash_insert h hkey rw).2
  | delete (h : rw_hash) (hkey : rw_request_hkey) (rw : rw_request) :
      rw_hash_reachable h →
      rw_hash_reachable (rw_request_hash_delete h hkey rw)

--==========================================================
-- Duplicate-resolution winner selection (rw_utils.h private API:
-- dup_res_handle_tie, apply_if_tie; bodies not in the snapshot).
--

/-- One candidate version in duplicate resolution: the metadata reported by
one node, together with that node's identifier. -/
structure dup_res_candidate where
  node : Nat
  generation : Nat
  last_update_time : Nat
  deriving DecidableEq, Repr

/-- Modelled from the spec: the duplicate-resolution winner rule (spec
section 4.3; the implementing C files behind `dup_res_handle_tie` and
`apply_if_tie` are not in the snapshot). The version with the strictly
greater `last_update_time` wins; if equal, the strictly greater `generation`
wins; if both are equal, the version held by the lowest node identifier
wins. -/
def dup_res_pick_winner (a b : dup_res_candidate) : dup_res_candidate :=
  if a.last_update_time > b.last_update_time then a
  else if b.last_update_time > a.last_update_time then b
  else if a.generation > b.generation then a
  else if b.generation > a.generation then b
  else if a.node ≤ b.node then a else b

--==========================================================
-- Index metadata stash/unwind (rw_utils.h, lines 68-82, 122-123).
--

/-- The `index_metadata` struct (rw_utils.h, lines 68-82), field for field.
`void_time` is a u32, `last_update_time` a u64, `generation` a u16; widths do
not matter here since stash/unwind only copy values. -/
structure index_metadata where
  void_time : Nat
  last_update_time : Nat
  generation : Nat
  has_bin_meta : Bool
  xdr_write : Bool
  tombstone : Bool
  cenotaph : Bool
  xdr_tombstone : Bool
  xdr_nsup_tombstone : Bool
  xdr_bin_cemetery : Bool
  deriving DecidableEq, Repr

/-- The record's index entry (`as_index`), restricted to the metadata fields
stash/unwind traffic in, plus fields outside the metadata (the record's
digest and reference count stand in for them) to express frame conditions. -/
structure as_index where
  void_time : Nat
  last_update_time : Nat
  generation : Nat
  has_bin_meta : Bool
  xdr_write : Bool
  tombstone : Bool
  cenotaph : Bool
  xdr_tombstone : Bool
  xdr_nsup_tombstone : Bool
  xdr_bin_cemetery : Bool
  keyd : cf_digest
  rc : Nat
  deriving DecidableEq, Repr

/-- Modelled from the spec: `stash_index_metadata` (declared at rw_utils.h
line 122, body not in the snapshot). Per spec section 4.6 it captures
void_time, last_update_time, generation and all flags of the record before
mutation. -/
def stash_index_metadata (r : as_index) : index_metadata :=
  { void_time := r.void_time
    last_update_time := r.last_update_time
    generation := r.generation
    has_bin_meta := r.has_bin_meta
    xdr_write := r.xdr_write
    tombstone := r.tombstone
    cenotaph := r.cenotaph
    xdr_tombstone := r.xdr_tombstone
    xdr_nsup_tombstone := r.xdr_nsup_tombstone
    xdr_bin_cemetery := r.xdr_bin_cemetery }

/-- Modelled from the spec: `unwind_index_metadata` (declared at rw_utils.h
line 123, body not in the snapshot). Per spec section 4.6 it restores every
captured field verbatim into the record. -/
def unwind_index_metadata (old : index_metadata) (r : as_index) : as_index :=
  { r with
    void_time := old.void_time
    last_update_time := old.last_update_time
    generation := old.generation
    has_bin_meta := old.has_bin_meta
    xdr_write := old.xdr_write
    tombstone := old.tombstone
    cenotaph := old.cenotaph
    xdr_tombstone := old.xdr_tombstone
    xdr_nsup_tombstone := old.xdr_nsup_tombstone
    xdr_bin_cemetery := old.xdr_bin_cemetery }

--==========================================================
-- Transactions: commit level, origin, response metadata (rw_utils.h,
-- lines 156-162 and 205-214).
--

/-- Modelled from the spec: the transaction origin enum of base/transaction.h
(not in the snapshot). `respond_on_master_complete` tests for `FROM_CLIENT`;
the other origins are internal (proxy, batch parent, internal ops). -/
inductive tr_origin
  | FROM_CLIENT
  | FROM_PROXY
  | FROM_BATCH
  | FROM_IUDF
  deriving DecidableEq, Repr

/-- Modelled from the spec: the write commit level enum of
base/transaction_policy.h (not in the snapshot). Spec section 4.4: `ALL`
waits for every replica acknowledgement, `MASTER` responds on master apply. -/
inductive as_write_commit_level
  | AS_WRITE_COMMIT_LEVEL_ALL
  | AS_WRITE_COMMIT_LEVEL_MASTER
  deriving DecidableEq, Repr

/-- The transaction object (`as_transaction`, base/transaction.h, not in the
snapshot), restricted to the fields read or written by the rw_utils.h inline
functions: origin, the effective write commit level (the value of
`TR_WRITE_COMMIT_LEVEL(tr)`), the two flags tested
(`AS_TRANSACTION_FLAG_SWITCH_TO_COMMIT_ALL`, `AS_TRANSACTION_FLAG_IS_DELETE`,
modelled as booleans since the flag word's bit values are not in the
snapshot), and the client-visible response metadata. -/
structure as_transaction where
  origin : tr_origin
  commit_level : as_write_commit_level
  flag_switch_to_commit_all : Bool
  flag_is_delete : Bool
  generation : Nat
  void_time : Nat
  last_update_time : Nat
  deriving DecidableEq, Repr

/-- `respond_on_master_complete` (rw_utils.h, lines 156-162): true exactly
when the transaction came from a client, its effective write commit level is
MASTER, and the SWITCH_TO_COMMIT_ALL flag is clear. -/
def respond_on_master_complete (tr : as_transaction) : Bool :=
  tr.origin = tr_origin.FROM_CLIENT ∧
    tr.commit_level = as_write_commit_level.AS_WRITE_COMMIT_LEVEL_MASTER ∧
    tr.flag_switch_to_commit_all = false

/-- `clear_delete_response_metadata` (rw_utils.h, lines 205-214): if the
IS_DELETE flag is set, zero the response metadata; otherwise do nothing. -/
def clear_delete_response_metadata (tr : as_transaction) : as_transaction :=
  if tr.flag_is_delete then
    { tr with generation := 0, void_time := 0, last_update_time := 0 }
  else tr

--==========================================================
-- Replica-write protocol (rw_utils.h: finished_not_replicated,
-- repl_write_should_retransmit_replicas; bodies not in the snapshot).
--

/-- The outcome a replica-write phase reports to the transaction. -/
inductive repl_result
  | Ok
  | ReplTimeout
  deriving DecidableEq, Repr

/-- The coordinator's replica-write phase for one transaction: the per
destination acknowledgement bits, the remaining retransmission budget, the
locally applied record (as stored in the index), and the final result once
the phase terminates. Modelled from the spec: the `rw_request` fields driving
`finished_not_replicated` (spec section 4.4) live in
transaction/rw_request.h, which is not in the snapshot. -/
structure repl_write_state where
  commit_level : as_write_commit_level
  acks : List Bool
  retrans_budget : Nat
  local_record : as_index
  result : Option repl_result
  deriving DecidableEq, Repr

/-- All destinations have acknowledged. -/
def repl_all_acked (s : repl_write_state) : Bool :=
  s.acks.all (fun b => b)

/-- Modelled from the spec: one retransmit-timer expiry in the replica-write
phase under commit level ALL (spec sections 4.4 and 7; the implementing C
files are not in the snapshot). If the phase already terminated, nothing
happens. If every destination has acknowledged, the phase ends with Ok. If
budget remains, one retransmission is spent. Otherwise the transaction fails
with a replication-timeout error; the locally applied record is not touched
(no implicit unwind). -/
def repl_write_on_timer (s : repl_write_state) : repl_write_state :=
  match s.result with
  | some _ => s
  | none =>
      if repl_all_acked s then { s with result := some repl_result.Ok }
      else if s.retrans_budget > 0 then
        { s with retrans_budget := s.retrans_budget - 1 }
      else { s with result := some repl_result.ReplTimeout }

/-- `n` consecutive timer expiries with no acknowledgement arriving in
between. -/
def repl_write_run_timers : Nat → repl_write_state → repl_write_state
  | 0, s => s
  | n + 1, s => repl_write_run_timers n (repl_write_on_timer s)

--==========================================================
-- Replica-side application of replica-write messages (spec section 4.4,
-- idempotence requirement; no replica-side C file is in the snapshot).
--

/-- A replica-write message: the transaction id used for matching, and the
record content it carries. -/
structure repl_write_msg where
  tid : Nat
  content : Nat
  deriving DecidableEq, Repr

/-- A replica's state: which transaction ids it has already applied, and its
current record content. -/
structure replica_state where
  applied_tids : List Nat
  record : Nat
  deriving DecidableEq, Repr

/-- Modelled from the spec: replica-side handling of a (possibly
retransmitted) replica-write message (spec section 4.4). A duplicate for an
already-applied transaction id is a no-op success; otherwise the content is
applied and the transaction id recorded. Returns the new state and the
success flag acknowledged to the coordinator. -/
def replica_apply (s : replica_state) (m : repl_write_msg) :
    replica_state × Bool :=
  if m.tid ∈ s.applied_tids then (s, true)
  else ({ applied_tids := m.tid :: s.applied_tids, record := m.content }, true)

--==========================================================
-- udf_cask_info_put filename validation (udf_cask.c, lines 329-412).
--

/-- The info parameters `udf_cask_info_put` reads via
`as_info_parameter_get`; `none` models a missing (or unreadable) parameter.
Names follow the C parameter keys. -/
structure udf_put_params where
  filename : Option (List Char)
  content_len : Option (List Char)
  udf_type : Option (List Char)
  content : Option (List Char)

/-- Results of the external collaborator calls `udf_cask_info_put` makes
after its parameter checks; they are inputs to the model since their
implementations (base64 library, Lua module validation, metadata service)
are outside the snapshot. -/
structure udf_put_env where
  content_size_ok : Bool
  b64_ok : Bool
  type_ok : Bool
  validate_ok : Bool
  smd_ok : Bool

/-- What a call to `udf_cask_info_put` did: its return code, the string
appended to the output buffer (empty on full success), whether base64
decoding of the content was attempted, and whether the module was handed to
the metadata service (`as_smd_set_blocking`). -/
structure udf_put_outcome where
  rc : Int
  out : String
  decode_attempted : Bool
  registered : Bool
  deriving DecidableEq, Repr

/-- The filename guard of `udf_cask_info_put` (udf_cask.c, lines 349-352):
`strchr(filename, '.')` is the suffix of the filename starting at its first
dot. The filename is valid when a dot exists (`tmp_char` non-null), the
first dot is not the first character (`tmp_char != filename`), and the
suffix from the first dot is longer than one character
(`strlen(tmp_char) > 1`). -/
def udf_filename_ok (fn : List Char) : Bool :=
  let tail := fn.dropWhile (fun c => c ≠ '.')
  ¬tail.isEmpty ∧ tail.length ≠ fn.length ∧ tail.length > 1

/-- `udf_cask_info_put` (udf_cask.c, lines 329-480), as the sequence of its
guards; each guard's failure appends its error string and returns 0 before
any later step runs. The post-guard work (JSON encoding, metadata-service
registration) is collapsed into the `registered` flag and the `smd_ok`
timeout branch. -/
def udf_cask_info_put (p : udf_put_params) (env : udf_put_env) :
    udf_put_outcome :=
  match p.filename with
  | none => ⟨0, "error=invalid_filename", false, false⟩
  | some fn =>
    if ¬udf_filename_ok fn then ⟨0, "error=invalid_filename", false, false⟩
    else match p.content_len with
    | none => ⟨0, "error=invalid_content_len", false, false⟩
    | some _ =>
      if ¬env.type_ok then ⟨0, "error=invalid_udf_type", false, false⟩
      else match p.content with
      | none => ⟨0, "error=invalid_content", false, false⟩
      | some _ =>
        if ¬env.content_size_ok then
          ⟨0, "error=invalid_udf_content_len, lua file size > 1MB",
            false, false⟩
        else if ¬env.b64_ok then
          ⟨0, "error=invalid_base64_content", true, false⟩
        else if ¬env.validate_ok then
          ⟨0, "error=compile_error", true, false⟩
        else if env.smd_ok then ⟨0, "", true, true⟩
        else ⟨0, "error=timeout", true, true⟩

--==========================================================
-- Helper lemmas.
--

theorem rw_request_hash_get_none {h : rw_hash} {hkey : rw_request_hkey}
    (hn : rw_request_hash_get h hkey = none) : ∀ p ∈ h, p.1 ≠ hkey := by
  induction h with
  | nil => intro p hp; cases hp
  | cons hd tl ih =>
      obtain ⟨a, b⟩ := hd
      by_cases hak : a = hkey
      · simp [rw_request_hash_get, hak] at hn
      · intro p hp
        rcases List.mem_cons.mp hp with rfl | hmem
        · exact hak
        · simp only [rw_request_hash_get, if_neg hak] at hn
          exact ih hn p hmem

theorem rw_insert_preserves_nodup (h : rw_hash) (hkey : rw_request_hkey)
    (rw : rw_request) (hd : rw_hash_nodup_keys h) :
    rw_hash_nodup_keys (rw_request_hash_insert h hkey rw).2 := by
  cases hg : rw_request_hash_get h hkey with
  | some v => simpa [rw_request_hash_insert, hg] using hd
  | none =>
      simp only [rw_request_hash_insert, hg]
      exact List.Pairwise.cons
        (fun p hp => fun e => rw_request_hash_get_none hg p hp e.symm) hd

theorem rw_delete_preserves_nodup (h : rw_hash) (hkey : rw_request_hkey)
    (rw : rw_request) (hd : rw_hash_nodup_keys h) :
    rw_hash_nodup_keys (rw_request_hash_delete h hkey rw) := by
  cases hg : rw_request_hash_get h hkey with
  | none => simpa [rw_request_hash_delete, hg] using hd
  | some stored =>
      by_cases hs : stored = rw
      · simp only [rw_request_hash_delete, hg, if_pos hs]
        exact List.Pairwise.sublist (List.filter_sublist h) hd
      · simpa [rw_request_hash_delete, hg, hs] using hd

theorem rw_reachable_nodup {h : rw_hash} (hr : rw_hash_reachable h) :
    rw_hash_nodup_keys h := by
  induction hr with
  | empty => exact List.Pairwise.nil
  | insert h hkey rw _ ih => exact rw_insert_preserves_nodup h hkey rw ih
  | delete h hkey rw _ ih => exact rw_delete_preserves_nodup h hkey rw ih

theorem rw_get_filter_self (h : rw_hash) (hkey : rw_request_hkey) :
    rw_request_hash_get (h.filter (fun p => decide (p.1 ≠ hkey))) hkey =
      none := by
  induction h with
  | nil => rfl
  | cons hd tl ih =>
      obtain ⟨a, b⟩ := hd
      by_cases hak : a = hkey
      · simpa [List.filter_cons, hak] using ih
      · simpa [List.filter_cons, hak, rw_request_hash_get] using ih

theorem rw_get_filter_other (h : rw_hash) (hkey k2 : rw_request_hkey)
    (hne : k2 ≠ hkey) :
    rw_request_hash_get (h.filter (fun p => decide (p.1 ≠ hkey))) k2 =
      rw_request_hash_get h k2 := by
  induction h with
  | nil => rfl
  | cons hd tl ih =>
      obtain ⟨a, b⟩ := hd
      by_cases hak : a = hkey
      · subst hak
        have h2 : ¬a = k2 := fun e => hne e.symm
        simpa [List.filter_cons, rw_request_hash_get, h2] using ih
      · by_cases h3 : a = k2
        · subst h3
          simp [List.filter_cons, hak, rw_request_hash_get]
        · simpa [List.filter_cons, hak, rw_request_hash_get, h3] using ih

--==========================================================
-- Claim theorems.
--

/-- C1: in every registry state reachable by inserts and deletes, each
RequestKey maps to at most one live entry (no two stored pairs share a key),
and `rw_request_hash_insert` on a key that already has a stored entry
returns a rejection status and leaves the table unchanged. -/
theorem rw_request_hash_at_most_one_entry (h : rw_hash)
    (hr : rw_hash_reachable h) :
    rw_hash_nodup_keys h ∧
      ∀ (hkey : rw_request_hkey) (rw e : rw_request),
        rw_request_hash_get h hkey = some e →
        rw_request_hash_insert h hkey rw = (trans_status.Rejected, h) := by
  refine ⟨rw_reachable_nodup hr, ?_⟩
  intro hkey rw e hg
  simp [rw_request_hash_insert, hg]

/-- Witness for C1: in the one-entry table reached by a single insert, a
second insert for the same key is rejected and the table is unchanged. -/
theorem rw_request_hash_at_most_one_entry_witness :
    rw_request_hash_insert [(⟨0, ⟨List.replicate 20 0⟩⟩, ⟨1⟩)]
        ⟨0, ⟨List.replicate 20 0⟩⟩ ⟨2⟩ =
      (trans_status.Rejected, [(⟨0, ⟨List.replicate 20 0⟩⟩, ⟨1⟩)]) :=
  (rw_request_hash_at_most_one_entry _
      (rw_hash_reachable.insert [] ⟨0, ⟨List.replicate 20 0⟩⟩ ⟨1⟩
        rw_hash_reachable.empty)).2
    ⟨0, ⟨List.replicate 20 0⟩⟩ ⟨2⟩ ⟨1⟩ rfl

/-- C8: `rw_request_hash_delete` removes the mapping for the key only when
the stored entry is identical to the given entry; when the stored entry
differs, or no entry is stored, the table is left completely unchanged.
On a matching delete the key is gone and every other key's mapping is
untouched. -/
theorem rw_request_hash_delete_only_if_identical (h : rw_hash)
    (hkey : rw_request_hkey) (rw : rw_request) :
    (∀ stored, rw_request_hash_get h hkey = some stored → stored ≠ rw →
        rw_request_hash_delete h hkey rw = h) ∧
    (rw_request_hash_get h hkey = none →
        rw_request_hash_delete h hkey rw = h) ∧
    (rw_request_hash_get h hkey = some rw →
        rw_request_hash_get (rw_request_hash_delete h hkey rw) hkey = none ∧
        ∀ k2, k2 ≠ hkey →
          rw_request_hash_get (rw_request_hash_delete h hkey rw) k2 =
            rw_request_hash_get h k2) := by
  refine ⟨?_, ?_, ?_⟩
  · intro stored hg hne
    simp [rw_request_hash_delete, hg, hne]
  · intro hg
    simp [rw_request_hash_delete, hg]
  · intro hg
    refine ⟨?_, ?_⟩
    · simp only [rw_request_hash_delete, hg, if_pos rfl]
      exact rw_get_filter_self h hkey
    · intro k2 hne
      simp only [rw_request_hash_delete, hg, if_pos rfl]
      exact rw_get_filter_other h hkey k2 hne

/-- Witness for C8: deleting with a stale entry whose identity differs from
the stored one leaves the table unchanged. -/
theorem rw_request_hash_delete_only_if_identical_witness :
    rw_request_hash_delete [(⟨0, ⟨List.replicate 20 0⟩⟩, ⟨1⟩)]
        ⟨0, ⟨List.replicate 20 0⟩⟩ ⟨2⟩ =
      [(⟨0, ⟨List.replicate 20 0⟩⟩, ⟨1⟩)] :=
  (rw_request_hash_delete_only_if_identical _ _ _).1 ⟨1⟩ rfl (by decide)

/-- C2: the duplicate-resolution winner selection picks the candidate with
the strictly greater last_update_time; on equal last_update_times, the one
with the strictly greater generation; and on a full tie, the candidate held
by the lowest node identifier. In particular generation 4 with
last-update-time 1200 beats generation 5 with last-update-time 1000. -/
theorem dup_res_pick_winner_rule (a b : dup_res_candidate) :
    (a.last_update_time > b.last_update_time → dup_res_pick_winner a b = a) ∧
    (b.last_update_time > a.last_update_time → dup_res_pick_winner a b = b) ∧
    (a.last_update_time = b.last_update_time → a.generation > b.generation →
        dup_res_pick_winner a b = a) ∧
    (a.last_update_time = b.last_update_time → b.generation > a.generation →
        dup_res_pick_winner a b = b) ∧
    (a.last_update_time = b.last_update_time → a.generation = b.generation →
        dup_res_pick_winner a b = if a.node ≤ b.node then a else b) ∧
    dup_res_pick_winner ⟨1, 5, 1000⟩ ⟨2, 4, 1200⟩ = ⟨2, 4, 1200⟩ := by
  obtain ⟨na, ga, la⟩ := a
  obtain ⟨nb, gb, lb⟩ := b
  refine ⟨?_, ?_, ?_, ?_, ?_, by decide⟩ <;>
    · dsimp only [dup_res_pick_winner]
      intros
      split_ifs <;> first | rfl | omega

/-- Witness for C2: node B's candidate with generation 4 and
last-update-time 1200 wins over node A's candidate with generation 5 and
last-update-time 1000, by the greater-last-update-time clause. -/
theorem dup_res_pick_winner_rule_witness :
    dup_res_pick_winner ⟨1, 5, 1000⟩ ⟨2, 4, 1200⟩ = ⟨2, 4, 1200⟩ :=
  (dup_res_pick_winner_rule ⟨1, 5, 1000⟩ ⟨2, 4, 1200⟩).2.1 (by decide)

/-- C3: `stash_index_metadata` followed by `unwind_index_metadata` restores
each captured field — void_time, last_update_time, generation and all seven
flags — to its exact value at the time of the stash, whatever mutation
happened to the record in between (`r2` is the mutated record). -/
theorem stash_unwind_round_trip (r r2 : as_index) :
    (unwind_index_metadata (stash_index_metadata r) r2).void_time =
        r.void_time ∧
    (unwind_index_metadata (stash_index_metadata r) r2).last_update_time =
        r.last_update_time ∧
    (unwind_index_metadata (stash_index_metadata r) r2).generation =
        r.generation ∧
    (unwind_index_metadata (stash_index_metadata r) r2).has_bin_meta =
        r.has_bin_meta ∧
    (unwind_index_metadata (stash_index_metadata r) r2).xdr_write =
        r.xdr_write ∧
    (unwind_index_metadata (stash_index_metadata r) r2).tombstone =
        r.tombstone ∧
    (unwind_index_metadata (stash_index_metadata r) r2).cenotaph =
        r.cenotaph ∧
    (unwind_index_metadata (stash_index_metadata r) r2).xdr_tombstone =
        r.xdr_tombstone ∧
    (unwind_index_metadata (stash_index_metadata r) r2).xdr_nsup_tombstone =
        r.xdr_nsup_tombstone ∧
    (unwind_index_metadata (stash_index_metadata r) r2).xdr_bin_cemetery =
        r.xdr_bin_cemetery :=
  ⟨rfl, rfl, rfl, rfl, rfl, rfl, rfl, rfl, rfl, rfl⟩

theorem repl_write_run_timers_exhaust (b : Nat) :
    ∀ s : repl_write_state, s.result = none → repl_all_acked s = false →
      s.retrans_budget = b →
      (repl_write_run_timers (b + 1) s).result =
          some repl_result.ReplTimeout ∧
        (repl_write_run_timers (b + 1) s).local_record = s.local_record := by
  induction b with
  | zero =>
      intro s hres hack hb
      simp [repl_write_run_timers, repl_write_on_timer, hres, hack, hb]
  | succ k ih =>
      intro s hres hack hb
      have h1 : repl_write_on_timer s = { s with retrans_budget := k } := by
        simp [repl_write_on_timer, hres, hack, hb]
      have h2 := ih { s with retrans_budget := k } hres
        (by simpa [repl_all_acked] using hack) rfl
      simpa [repl_write_run_timers, h1] using h2

/-- C4: a commit-level-ALL transaction whose replica acknowledgements never
all arrive terminates, once the retransmission budget is exhausted, with a
replication-timeout error, and the locally applied record is left exactly
as it was — the timeout path performs no rollback of the local write. -/
theorem finished_not_replicated_no_unwind (s : repl_write_state)
    (_hc : s.commit_level = as_write_commit_level.AS_WRITE_COMMIT_LEVEL_ALL)
    (hres : s.result = none) (hack : repl_all_acked s = false) :
    (repl_write_run_timers (s.retrans_budget + 1) s).result =
        some repl_result.ReplTimeout ∧
      (repl_write_run_timers (s.retrans_budget + 1) s).local_record =
        s.local_record :=
  repl_write_run_timers_exhaust s.retrans_budget s hres hack rfl

/-- Witness for C4: with two replicas, neither of which acknowledges, and a
retransmission budget of 2, the phase ends in replication timeout with the
local record untouched. -/
theorem finished_not_replicated_no_unwind_witness :
    (repl_write_run_timers 3
          ⟨as_write_commit_level.AS_WRITE_COMMIT_LEVEL_ALL, [false, false], 2,
            ⟨7, 8, 9, false, false, false, false, false, false, false,
              ⟨List.replicate 20 0⟩, 1⟩, none⟩).result =
        some repl_result.ReplTimeout ∧
      (repl_write_run_timers 3
          ⟨as_write_commit_level.AS_WRITE_COMMIT_LEVEL_ALL, [false, false], 2,
            ⟨7, 8, 9, false, false, false, false, false, false, false,
              ⟨List.replicate 20 0⟩, 1⟩, none⟩).local_record =
        ⟨7, 8, 9, false, false, false, false, false, false, false,
          ⟨List.replicate 20 0⟩, 1⟩ :=
  finished_not_replicated_no_unwind
    ⟨as_write_commit_level.AS_WRITE_COMMIT_LEVEL_ALL, [false, false], 2,
      ⟨7, 8, 9, false, false, false, false, false, false, false,
        ⟨List.replicate 20 0⟩, 1⟩, none⟩
    rfl rfl rfl

/-- C5 counterexample: a transaction whose effective write commit level is
MASTER but which carries the SWITCH_TO_COMMIT_ALL flag does not get the
respond-on-master-complete treatment — `respond_on_master_complete` is
false, refuting the claim that it returns true for every transaction with
commit level MASTER. -/
theorem respond_on_master_complete_master_not_sufficient :
    respond_on_master_complete
        ⟨tr_origin.FROM_CLIENT,
          as_write_commit_level.AS_WRITE_COMMIT_LEVEL_MASTER,
          true, false, 0, 0, 0⟩ = false := by decide

/-- C5 amended: `respond_on_master_complete` returns true exactly when the
transaction originates from a client, its effective write commit level is
MASTER, and the SWITCH_TO_COMMIT_ALL flag is clear. -/
theorem respond_on_master_complete_iff (tr : as_transaction) :
    respond_on_master_complete tr = true ↔
      tr.origin = tr_origin.FROM_CLIENT ∧
        tr.commit_level =
          as_write_commit_level.AS_WRITE_COMMIT_LEVEL_MASTER ∧
        tr.flag_switch_to_commit_all = false := by
  simp [respond_on_master_complete]

/-- Witness for C5 (amended): a client-origin MASTER-level transaction
without the switch flag does respond on master complete. -/
theorem respond_on_master_complete_iff_witness :
    respond_on_master_complete
        ⟨tr_origin.FROM_CLIENT,
          as_write_commit_level.AS_WRITE_COMMIT_LEVEL_MASTER,
          false, false, 0, 0, 0⟩ = true :=
  (respond_on_master_complete_iff _).mpr ⟨rfl, rfl, rfl⟩

/-- C6: applying a retransmitted replica-write message (same transaction id,
same content) twice to a replica yields exactly the state of applying it
once, and both applications report success — a duplicate for an
already-applied transaction id is a no-op success. -/
theorem replica_apply_idempotent (s : replica_state) (m : repl_write_msg) :
    (replica_apply (replica_apply s m).1 m).1 = (replica_apply s m).1 ∧
      (replica_apply (replica_apply s m).1 m).2 = true ∧
      (replica_apply s m).2 = true := by
  by_cases hm : m.tid ∈ s.applied_tids <;>
    simp [replica_apply, hm]

/-- C9: `clear_delete_response_metadata` zeroes generation, void_time and
last_update_time when the transaction carries the IS_DELETE flag (leaving
all other fields as they were), and leaves the transaction entirely
unchanged when it does not. -/
theorem clear_delete_response_metadata_iff (tr : as_transaction) :
    (tr.flag_is_delete = true →
        clear_delete_response_metadata tr =
          { tr with generation := 0, void_time := 0, last_update_time := 0 }) ∧
      (tr.flag_is_delete = false →
        clear_delete_response_metadata tr = tr) := by
  constructor <;> intro hf <;> simp [clear_delete_response_metadata, hf]

/-- Witness for C9: a delete-flagged transaction has its response metadata
zeroed with the other fields intact; the same transaction without the flag
is returned unchanged. -/
theorem clear_delete_response_metadata_iff_witness :
    clear_delete_response_metadata
        ⟨tr_origin.FROM_CLIENT,
          as_write_commit_level.AS_WRITE_COMMIT_LEVEL_ALL,
          false, true, 5, 6, 7⟩ =
      ⟨tr_origin.FROM_CLIENT,
        as_write_commit_level.AS_WRITE_COMMIT_LEVEL_ALL,
        false, true, 0, 0, 0⟩ :=
  (clear_delete_response_metadata_iff
      ⟨tr_origin.FROM_CLIENT,
        as_write_commit_level.AS_WRITE_COMMIT_LEVEL_ALL,
        false, true, 5, 6, 7⟩).1 rfl

/-- C7: the wire field enumeration gives the eleven documented fields the
pairwise-distinct ordinals 0,1,2,3,4,5,6,10,12,16,19 in the claimed relative
order, the enumeration count is 20, and every other ordinal below the count
is occupied by an `RW_FIELD_UNUSED_*` reserved slot. -/
theorem rw_msg_field_ordinal_contract :
    rw_field_ordinal RW_FIELD_OP = 0 ∧
    rw_field_ordinal RW_FIELD_RESULT = 1 ∧
    rw_field_ordinal RW_FIELD_NAMESPACE = 2 ∧
    rw_field_ordinal RW_FIELD_NS_IX = 3 ∧
    rw_field_ordinal RW_FIELD_GENERATION = 4 ∧
    rw_field_ordinal RW_FIELD_DIGEST = 5 ∧
    rw_field_ordinal RW_FIELD_RECORD = 6 ∧
    rw_field_ordinal RW_FIELD_TID = 10 ∧
    rw_field_ordinal RW_FIELD_INFO = 12 ∧
    rw_field_ordinal RW_FIELD_LAST_UPDATE_TIME = 16 ∧
    rw_field_ordinal RW_FIELD_REGIME = 19 ∧
    NUM_RW_FIELDS = 20 ∧
    (rw_msg_field_order.map rw_field_ordinal).Nodup ∧
    (∀ n, n < NUM_RW_FIELDS →
      n ∉ [0, 1, 2, 3, 4, 5, 6, 10, 12, 16, 19] →
      (rw_msg_field_order[n]?.any rw_field_is_unused) = true) := by decide

/-- Witness for C7: ordinal 7, not among the documented ordinals, is
occupied by a reserved slot. -/
theorem rw_msg_field_ordinal_contract_witness :
    (rw_msg_field_order[7]?.any rw_field_is_unused) = true :=
  rw_msg_field_ordinal_contract.2.2.2.2.2.2.2.2.2.2.2.2.2 7 (by decide)
    (by decide)

theorem udf_dropWhile_dot_nil_iff (fn : List Char) :
    fn.dropWhile (fun c => c ≠ '.') = [] ↔ '.' ∉ fn := by
  rw [List.dropWhile_eq_nil_iff]
  constructor
  · intro h hmem
    have h2 := h '.' hmem
    simp at h2
  · intro h x hx
    simp only [decide_eq_true_eq]
    intro e
    exact h (e ▸ hx)

theorem udf_dropWhile_dot_head (fn : List Char) :
    ∀ x xs, fn.dropWhile (fun c => c ≠ '.') = x :: xs → x = '.' := by
  induction fn with
  | nil => intro x xs h; cases h
  | cons c cs ih =>
      intro x xs h
      rw [List.dropWhile_cons] at h
      by_cases hc : c = '.'
      · rw [if_neg (by simp [hc])] at h
        injection h with h1 _
        rw [← h1]
        exact hc
      · rw [if_pos (by simp [hc])] at h
        exact ih x xs h

theorem udf_filename_ok_false_iff (fn : List Char) :
    udf_filename_ok fn = false ↔
      ('.' ∉ fn ∨ fn.head? = some '.' ∨
        fn.dropWhile (fun c => c ≠ '.') = ['.']) := by
  cases fn with
  | nil => simp [udf_filename_ok]
  | cons c cs =>
      by_cases hc : c = '.'
      · subst hc
        have ht : ('.' :: cs).dropWhile (fun c => decide (c ≠ '.')) =
            '.' :: cs := by
          rw [List.dropWhile_cons, if_neg (by simp)]
        simp [udf_filename_ok, ht]
      · have ht : (c :: cs).dropWhile (fun c => decide (c ≠ '.')) =
            cs.dropWhile (fun c => decide (c ≠ '.')) := by
          rw [List.dropWhile_cons, if_pos (by simp [hc])]
        have hlen : (cs.dropWhile (fun c => decide (c ≠ '.'))).length ≤
            cs.length :=
          (List.dropWhile_sublist _).length_le
        cases htail : cs.dropWhile (fun c => decide (c ≠ '.')) with
        | nil =>
            have hnm : '.' ∉ cs := (udf_dropWhile_dot_nil_iff cs).mp htail
            have hcc : ¬('.' = c) := fun e => hc e.symm
            simp only [decide_not] at ht htail
            simp [udf_filename_ok, ht, htail, hnm, hcc]
        | cons x xs =>
            have hx : x = '.' := udf_dropWhile_dot_head cs x xs htail
            subst hx
            have hmem : '.' ∈ cs := by
              by_contra hnm
              rw [← udf_dropWhile_dot_nil_iff cs, htail] at hnm
              cases hnm
            rw [htail] at hlen
            simp only [List.length_cons] at hlen
            have h2 : xs.length + 1 ≠ cs.length + 1 := by omega
            simp only [decide_not] at ht htail
            simp [udf_filename_ok, ht, htail, hmem, hc, h2,
              Nat.succ_le_succ_iff, Nat.le_zero, List.length_eq_zero]

/-- C10 counterexample: the filename "a.b." ends in '.' (its final dot has
no extension after it), yet `udf_cask_info_put` accepts it — the guard only
rejects when the FIRST dot is the final character, so the call proceeds past
the filename check (here failing the later content-len check instead of
appending "error=invalid_filename"). -/
theorem udf_cask_info_put_trailing_dot_accepted :
    ['a', '.', 'b', '.'].getLast? = some '.' ∧
      udf_filename_ok ['a', '.', 'b', '.'] = true ∧
      udf_cask_info_put
          { filename := some ['a', '.', 'b', '.'], content_len := none,
            udf_type := none, content := none }
          ⟨true, true, true, true, true⟩ =
        ⟨0, "error=invalid_content_len", false, false⟩ ∧
      "error=invalid_content_len" ≠ "error=invalid_filename" := by
  refine ⟨rfl, by decide, by decide, by decide⟩

/-- C10 amended: `udf_cask_info_put` appends "error=invalid_filename" and
returns 0 without decoding content or registering anything whenever the
filename parameter is missing or fails the filename guard; the guard fails
exactly when the filename contains no '.', begins with '.', or its FIRST
'.' is the final character (a trailing dot preceded by another dot passes
the guard). -/
theorem udf_cask_info_put_invalid_filename (p : udf_put_params)
    (env : udf_put_env) :
    (p.filename = none →
        udf_cask_info_put p env =
          ⟨0, "error=invalid_filename", false, false⟩) ∧
      (∀ fn, p.filename = some fn → udf_filename_ok fn = false →
        udf_cask_info_put p env =
          ⟨0, "error=invalid_filename", false, false⟩) ∧
      (∀ fn, udf_filename_ok fn = false ↔
        ('.' ∉ fn ∨ fn.head? = some '.' ∨
          fn.dropWhile (fun c => c ≠ '.') = ['.'])) := by
  refine ⟨?_, ?_, fun fn => udf_filename_ok_false_iff fn⟩
  · intro hf
    simp [udf_cask_info_put, hf]
  · intro fn hf hok
    simp [udf_cask_info_put, hf, hok]

/-- Witness for C10 (amended): a filename with no dot is rejected with
"error=invalid_filename", return code 0, and no decode or registration. -/
theorem udf_cask_info_put_invalid_filename_witness :
    udf_cask_info_put
        { filename := some ['a', 'b'], content_len := none,
          udf_type := none, content := none }
        ⟨true, true, true, true, true⟩ =
      ⟨0, "error=invalid_filename", false, false⟩ :=
  (udf_cask_info_put_invalid_filename _ _).2.1 ['a', 'b'] rfl (by decide)
